import Mathlib

/-!
Shallow embedding of `securedrop/journalist_app/admin.py` (the admin blueprint
of the SecureDrop journalist interface) and proofs about its handlers.

The database is modelled as a list of journalist rows plus a fresh-id counter.
Each Flask view function becomes a pure function from the request data (HTTP
method, form fields, the authenticated admin in `g.user`) to a `HandlerResult`:
the HTTP response, the database after the request, the flash messages shown to
the user, and the server-side log lines.

Collaborator code that the blueprint calls but that is not part of the provided
sources (`models.py`, `journalist_app/utils.py`, `journalist_app/forms.py`) is
modelled from the spec; each such definition carries a doc comment starting
with `Modelled from the spec:`. Everything else is translated directly from
`admin.py`.
-/

namespace Admin

/-- Embeds a row of the `journalists` table, with the fields the admin
blueprint reads or writes: primary key, unique username, password hash,
admin flag, and the OTP configuration (TOTP vs HOTP mode plus shared secret). -/
structure Journalist where
  id : Nat
  username : String
  passwordHash : String
  isAdmin : Bool
  isTotp : Bool
  otpSecret : Option String
  deriving Repr, DecidableEq

/-- Embeds the persistent database state: the `journalists` table plus the
primary key the storage layer will assign to the next inserted row. -/
structure DB where
  users : List Journalist
  nextId : Nat
  deriving Repr, DecidableEq

/-- Embeds the HTTP method of the request. -/
inductive Method where
  | GET
  | POST
  deriving Repr, DecidableEq

/-- Embeds the outcome a Flask view produces: a redirect, a rendered template,
an `abort(code)`, or an uncaught Python exception propagating out of the
handler (which Flask turns into HTTP 500). -/
inductive Resp where
  | redirect (url : String)
  | render (template : String)
  | httpAbort (code : Nat)
  | pythonError (msg : String)
  deriving Repr, DecidableEq

/-- Embeds everything observable about one handled request: the response, the
database afterwards, the flash messages pushed, and the log lines written. -/
structure HandlerResult where
  resp : Resp
  db : DB
  flashes : List (String × String)
  logs : List String
  deriving Repr, DecidableEq

/-- Embeds Python truthiness of an optional form field: missing and the empty
string are falsy, any other string is truthy. -/
def truthy : Option String → Bool
  | none => false
  | some s => s ≠ ""

/-- Embeds `Journalist.query.get(pk)`: SQLAlchemy returns the row with the
given primary key, or `None` when there is no such row; it never raises
`NoResultFound` (that exception belongs to `Query.one`). -/
def queryGet (db : DB) (uid : Nat) : Option Journalist :=
  db.users.find? (fun u => u.id == uid)

/-- Embeds `url_for('admin.index')`. -/
def adminIndexUrl : String := "/"

/-- Embeds `url_for('admin.edit_user', user_id=uid)`. -/
def editUserUrl (uid : Nat) : String := "/edit/" ++ toString uid

/-- Embeds `url_for('admin.new_user_two_factor', uid=uid)`. -/
def newUserTwoFactorUrl (uid : Nat) : String := "/2fa?uid=" ++ toString uid

/-- Helper for the Python substring test: does the second list start with the
first one? -/
def leadsWith : List Char → List Char → Bool
  | [], _ => true
  | _ :: _, [] => false
  | a :: as, b :: bs => a == b && leadsWith as bs

/-- Helper: does the second list contain the first as a contiguous
subsequence? -/
def hasSub (pat : List Char) : List Char → Bool
  | [] => leadsWith pat []
  | c :: rest => leadsWith pat (c :: rest) || hasSub pat rest

/-- Embeds the Python membership test `pat in s` on strings. -/
def strContains (s pat : String) : Bool :=
  hasSub pat.toList s.toList

/-- Embeds the message of the `IntegrityError` SQLite raises when the unique
constraint on `journalists.username` is violated; `add_user` tests for this
exact text as a substring. -/
def uniqueViolationMsg : String := "UNIQUE constraint failed: journalists.username"

/-- Modelled from the spec: `Journalist.check_username_acceptable` lives in
`models.py`, which is not among the provided sources. The spec calls usernames
"policy-constrained" and the handlers surface `InvalidUsernameException` with
a message; modelled as a minimum-length policy on the username. -/
def check_username_acceptable (u : String) : Except String Unit :=
  if u.length < 3 then .error "Must be at least 3 characters long"
  else .ok ()

/-- Modelled from the spec: password hashing is owned by the account service
("password (hashed, never stored plaintext)"); modelled as an injective
tagging of the plaintext. -/
def hashPassword (p : String) : String := "hashed:" ++ p

/-- Modelled from the spec: the account service validates passwords and raises
`PasswordError` on bad ones; modelled as rejecting only the empty password
(the spec's end-to-end example accepts the one-character password "x"). -/
def passwordValid (p : String) : Bool := p ≠ ""

/-- Embeds the two exceptions the `Journalist` constructor can raise in
`add_user`. -/
inductive CreateError where
  | passwordError
  | invalidUsername (msg : String)
  deriving Repr, DecidableEq

/-- Modelled from the spec: the `Journalist` constructor (in `models.py`, not
among the provided sources) validates the username and password and stores the
account fields; an account created with an OTP secret is in HOTP mode,
otherwise it gets the TOTP default. -/
def mkJournalist (id : Nat) (username password : String) (isAdmin : Bool)
    (otpSecret : Option String) : Except CreateError Journalist :=
  match check_username_acceptable username with
  | .error m => .error (.invalidUsername m)
  | .ok _ =>
    if passwordValid password then
      .ok { id := id, username := username, passwordHash := hashPassword password,
            isAdmin := isAdmin, isTotp := otpSecret.isNone, otpSecret := otpSecret }
    else
      .error .passwordError

/-- Embeds `db.session.add(new_user); db.session.commit()`: the storage layer
enforces the unique constraint on usernames and raises `IntegrityError` for
the loser; on success the row is inserted with the next primary key. -/
def sessionAddCommit (db : DB) (u : Journalist) : Except String DB :=
  if db.users.any (fun v => v.username == u.username) then
    .error uniqueViolationMsg
  else
    .ok { users := db.users ++ [u], nextId := db.nextId + 1 }

/-- Helper: write an updated row back over the row with the same primary
key. -/
def storeUser (db : DB) (u : Journalist) : DB :=
  { db with users := db.users.map (fun v => if v.id == u.id then u else v) }

/-- Modelled from the spec: `commit_account_changes` (in
`journalist_app/utils.py`, not among the provided sources) persists the
mutated account ("Persists only after validation passes"). -/
def commit_account_changes (db : DB) (u : Journalist) : DB :=
  storeUser db u

/-- Modelled from the spec: `set_diceware_password` (in
`journalist_app/utils.py`, not among the provided sources) "delegates
hashing/validation to the account service"; modelled as storing the hash of
the submitted password on the target account and committing. -/
def set_diceware_password (db : DB) (uid : Nat) (password : Option String) : DB :=
  { db with users := db.users.map (fun v =>
      if v.id == uid then { v with passwordHash := hashPassword (password.getD "") } else v) }

/-- Modelled from the spec: `Journalist.set_hotp_secret` (in `models.py`, not
among the provided sources) "validates secret is well-formed hexadecimal of
even length before persisting"; like Python 2 `binascii.unhexlify` it raises
`TypeError("Odd-length string")` for an odd-length input and
`TypeError("Non-hexadecimal digit found")` for a non-hex digit, and on valid
input switches the account to HOTP mode with the new secret. -/
def set_hotp_secret (u : Journalist) (secret : String) : Except String Journalist :=
  if secret.length % 2 == 1 then
    .error "Odd-length string"
  else if secret.toList.any (fun c => !(isHexDigitChar c)) then
    .error "Non-hexadecimal digit found"
  else
    .ok { u with isTotp := false, otpSecret := some secret }
where
  /-- Hex digits accepted by `binascii.unhexlify`. -/
  isHexDigitChar (c : Char) : Bool :=
    (('0' ≤ c && c ≤ '9') || ('a' ≤ c && c ≤ 'f') || ('A' ≤ c && c ≤ 'F'))

/-- Modelled from the spec: `Journalist.verify_token` (in `models.py`, not
among the provided sources) "verifies token against the account's OTP
configuration"; modelled as comparison with the one token the account's
current OTP configuration accepts. -/
def expected_token (u : Journalist) : String :=
  "otp-" ++ (if u.isTotp then "totp-" else "hotp-") ++ u.otpSecret.getD "generated"

/-- Modelled from the spec: token verification delegated to the account
service. -/
def verify_token (u : Journalist) (token : String) : Bool :=
  token == expected_token u

/-- Embeds the fields of the `/add` form that `add_user` reads:
`request.form['username']`, `request.form['password']`,
`request.form.get('is_admin')`, `request.form.get('is_hotp', False)`,
`request.form.get('otp_secret', '')`. -/
structure AddForm where
  username : String
  password : String
  isAdmin : Option String
  isHotp : Option String
  otpSecret : Option String
  deriving Repr, DecidableEq

/-- Modelled from the spec: `NewUserForm.validate_on_submit` (in
`journalist_app/forms.py`, not among the provided sources) — the Form
Validator "parses and validates incoming form fields (username, password, OTP
secret, logo file) against basic constraints"; modelled as requiring a POST
with nonempty username and password fields. -/
def validate_on_submit (method : Method) (form : AddForm) : Bool :=
  method == .POST && form.username ≠ "" && form.password ≠ ""

/-- Embeds `add_user`: on a validated submission it builds the new
`Journalist` (the OTP secret is only taken from the form when `is_hotp` is
truthy), commits it, and redirects to the two-factor enrollment step; the
`PasswordError`, `InvalidUsernameException` and `IntegrityError` handlers
flash an error (rolling back in the `IntegrityError` case, where the
duplicate-username constraint violation is told apart from other failures by a
substring test on the message) and fall through to re-rendering the form. -/
def add_user (db : DB) (method : Method) (form : AddForm) : HandlerResult :=
  if validate_on_submit method form then
    let otpSecret : Option String :=
      if truthy form.isHotp then some (form.otpSecret.getD "") else none
    match mkJournalist db.nextId form.username form.password (truthy form.isAdmin) otpSecret with
    | .error .passwordError =>
        { resp := .render "admin_add_user.html", db := db,
          flashes := [("There was an error with the autogenerated password. User not created. Please try again.", "error")],
          logs := [] }
    | .error (.invalidUsername m) =>
        { resp := .render "admin_add_user.html", db := db,
          flashes := [("Invalid username: " ++ m, "error")], logs := [] }
    | .ok newUser =>
      match sessionAddCommit db newUser with
      | .error m =>
          if strContains m uniqueViolationMsg then
            { resp := .render "admin_add_user.html", db := db,
              flashes := [("That username is already in use", "error")], logs := [] }
          else
            { resp := .render "admin_add_user.html", db := db,
              flashes := [("An error occurred saving this user to the database. Please inform your administrator.", "error")],
              logs := ["Adding user " ++ form.username ++ " failed: " ++ m] }
      | .ok db2 =>
          { resp := .redirect (newUserTwoFactorUrl newUser.id), db := db2,
            flashes := [], logs := [] }
  else
    { resp := .render "admin_add_user.html", db := db, flashes := [], logs := [] }

/-- Embeds `new_user_two_factor`: looks up the account from the `uid` query
argument (`None` when absent from the table); a GET renders the enrollment
page; a POST reads `request.form['token']` (`KeyError` when missing) and calls
`user.verify_token` (`AttributeError` when the account does not exist),
redirecting to the index on success and re-rendering with an error flash on
failure. -/
def new_user_two_factor (db : DB) (uid : Nat) (method : Method)
    (token : Option String) : HandlerResult :=
  match method with
  | .GET =>
      { resp := .render "admin_new_user_two_factor.html", db := db,
        flashes := [], logs := [] }
  | .POST =>
    match token with
    | none => { resp := .pythonError "KeyError", db := db, flashes := [], logs := [] }
    | some t =>
      match queryGet db uid with
      | none => { resp := .pythonError "AttributeError", db := db, flashes := [], logs := [] }
      | some u =>
        if verify_token u t then
          { resp := .redirect adminIndexUrl, db := db,
            flashes := [("Token in two-factor authentication accepted for user " ++ u.username ++ ".", "notification")],
            logs := [] }
        else
          { resp := .render "admin_new_user_two_factor.html", db := db,
            flashes := [("Could not verify token in two-factor authentication.", "error")],
            logs := [] }

/-- Embeds `reset_two_factor_hotp`: when the submitted `otp_secret` is truthy
it looks up the account (`AttributeError` on a missing account) and calls
`set_hotp_secret`; the `TypeError` handler tells the non-hex-digit and
odd-length messages apart by substring tests, flashes accordingly, and
re-renders the secret form without committing; on success it commits and
redirects to the enrollment step. A missing or empty secret skips the lookup
entirely and just re-renders the secret form. -/
def reset_two_factor_hotp (db : DB) (uid : Nat) (otpSecret : Option String) : HandlerResult :=
  if truthy otpSecret then
    let secret := otpSecret.getD ""
    match queryGet db uid with
    | none => { resp := .pythonError "AttributeError", db := db, flashes := [], logs := [] }
    | some user =>
      match set_hotp_secret user secret with
      | .error m =>
          if strContains m "Non-hexadecimal digit found" then
            { resp := .render "admin_edit_hotp_secret.html", db := db,
              flashes := [("Invalid secret format: please only submit letters A-F and numbers 0-9.", "error")],
              logs := [] }
          else if strContains m "Odd-length string" then
            { resp := .render "admin_edit_hotp_secret.html", db := db,
              flashes := [("Invalid secret format: odd-length secret. Did you mistype the secret?", "error")],
              logs := [] }
          else
            { resp := .render "admin_edit_hotp_secret.html", db := db,
              flashes := [("An unexpected error occurred! Please inform your administrator.", "error")],
              logs := ["set_hotp_secret " ++ secret ++ " (id " ++ toString uid ++ ") failed: " ++ m] }
      | .ok user2 =>
          { resp := .redirect (newUserTwoFactorUrl uid),
            db := storeUser db user2, flashes := [], logs := [] }
  else
    { resp := .render "admin_edit_hotp_secret.html", db := db, flashes := [], logs := [] }

/-- Embeds the fields of the `/edit/{id}` form that `edit_user` reads:
`request.form.get('username', None)` and `request.form.get('is_admin')`. -/
structure EditForm where
  username : Option String
  isAdmin : Option String
  deriving Repr, DecidableEq

/-- Helper for `edit_user`: the tail of the POST branch, after the username
block has (possibly) updated the in-memory account: set `is_admin` from the
form, persist via `commit_account_changes`, and render the edit page. -/
def finishEdit (db : DB) (user : Journalist) (form : EditForm) : HandlerResult :=
  { resp := .render "edit_account.html",
    db := commit_account_changes db { user with isAdmin := truthy form.isAdmin },
    flashes := [], logs := [] }

/-- Embeds `edit_user`: looks the account up (a POST on a missing account
dereferences `None` and raises `AttributeError`); on a POST with a truthy
username field it checks acceptability (invalid: flash + redirect), then skips
the uniqueness check when the submitted name equals the current one, fails
with a username-taken flash when another row holds the name, and otherwise
renames; in all surviving cases it sets the admin flag from the form and
persists. -/
def edit_user (db : DB) (uid : Nat) (method : Method) (form : EditForm) : HandlerResult :=
  match queryGet db uid with
  | none =>
    match method with
    | .GET => { resp := .render "edit_account.html", db := db, flashes := [], logs := [] }
    | .POST => { resp := .pythonError "AttributeError", db := db, flashes := [], logs := [] }
  | some user =>
    match method with
    | .GET => { resp := .render "edit_account.html", db := db, flashes := [], logs := [] }
    | .POST =>
      if truthy form.username then
        let newUsername := form.username.getD ""
        match check_username_acceptable newUsername with
        | .error m =>
            { resp := .redirect (editUserUrl uid), db := db,
              flashes := [("Invalid username: " ++ m, "error")], logs := [] }
        | .ok _ =>
          if newUsername == user.username then
            finishEdit db user form
          else if db.users.any (fun v => v.username == newUsername) then
            { resp := .redirect (editUserUrl uid), db := db,
              flashes := [("Username " ++ newUsername ++ " already taken.", "error")],
              logs := [] }
          else
            finishEdit db { user with username := newUsername } form
      else
        finishEdit db user form

/-- Embeds `set_password`: `Journalist.query.get` returns the row or `None`
and never raises `NoResultFound`, so the `except NoResultFound: abort(404)`
branch is dead code; with a missing id the handler falls through and calls
`set_diceware_password(None, password)`, whose attribute access on `None`
raises an uncaught `AttributeError`. With an existing account it sets the new
password and redirects back to the edit page. -/
def set_password (db : DB) (uid : Nat) (password : Option String) : HandlerResult :=
  match queryGet db uid with
  | none =>
      { resp := .pythonError "AttributeError", db := db, flashes := [], logs := [] }
  | some _ =>
      { resp := .redirect (editUserUrl uid),
        db := set_diceware_password db uid password, flashes := [], logs := [] }

/-- Embeds `delete_user`: the requesting admin (`g.user`) may not delete
itself — that is logged and aborted with 403 before any mutation; deleting an
existing other account removes the row, flashes, and redirects to the index;
a nonexistent target is logged and aborted with 404. -/
def delete_user (db : DB) (gUser : Journalist) (uid : Nat) : HandlerResult :=
  let user? := queryGet db uid
  if uid == gUser.id then
    { resp := .httpAbort 403, db := db, flashes := [],
      logs := ["Admin " ++ gUser.username ++ " tried to delete itself"] }
  else
    match user? with
    | some u =>
        { resp := .redirect adminIndexUrl,
          db := { db with users := db.users.filter (fun v => v.id != uid) },
          flashes := [("Deleted user " ++ u.username, "notification")], logs := [] }
    | none =>
        { resp := .httpAbort 404, db := db, flashes := [],
          logs := ["Admin " ++ gUser.username ++ " tried to delete nonexistent user with pk=" ++ toString uid] }

/-- Embeds `new_password`, the second view bound to
`/edit/<int:user_id>/new-password`; its body is textually identical to
`set_password`, including the dead `NoResultFound` handler. -/
def new_password (db : DB) (uid : Nat) (password : Option String) : HandlerResult :=
  match queryGet db uid with
  | none =>
      { resp := .pythonError "AttributeError", db := db, flashes := [], logs := [] }
  | some _ =>
      { resp := .redirect (editUserUrl uid),
        db := set_diceware_password db uid password, flashes := [], logs := [] }

/-! ## Helper lemmas -/

/-- Helper: a `find?` that fails on the left part of an append continues on
the right part. -/
theorem find?_append_left_none {α : Type} (p : α → Bool) (l₁ l₂ : List α)
    (h : l₁.find? p = none) : (l₁ ++ l₂).find? p = l₂.find? p := by
  induction l₁ with
  | nil => rfl
  | cons a l ih =>
    have ha : ¬ (p a = true) := by
      intro hpa
      rw [List.find?_cons_of_pos _ hpa] at h
      exact Option.noConfusion h
    rw [List.find?_cons_of_neg _ ha] at h
    rw [List.cons_append, List.find?_cons_of_neg _ ha]
    exact ih h

/-- Helper: overwriting the row found at a primary key makes a later lookup of
that key return the overwritten row, provided the new row keeps the key. -/
theorem find?_map_store (l : List Journalist) (uid : Nat) (u u2 : Journalist)
    (h : l.find? (fun v => v.id == uid) = some u) (hid : u2.id = u.id) :
    (l.map (fun v => if v.id == u2.id then u2 else v)).find? (fun v => v.id == uid)
      = some u2 := by
  have hu : (u.id == uid) = true := by
    have h2 := List.find?_some (p := fun v : Journalist => v.id == uid) h
    simpa using h2
  induction l with
  | nil => exact Option.noConfusion h
  | cons a l ih =>
    rw [List.map_cons]
    by_cases ha : (a.id == uid) = true
    · have h4 : a = u := by
        have h5 : (a :: l).find? (fun v => v.id == uid) = some a :=
          List.find?_cons_of_pos (p := fun v : Journalist => v.id == uid) l ha
        rw [h5] at h
        exact Option.some.inj h
      subst h4
      have h2 : (a.id == u2.id) = true := by
        rw [hid]
        exact beq_self_eq_true a.id
      have h3 : (u2.id == uid) = true := by
        rw [hid]
        exact hu
      rw [if_pos h2]
      exact List.find?_cons_of_pos (p := fun v : Journalist => v.id == uid) _ h3
    · have hb : (a.id == uid) = false := by
        simpa using ha
      have h2 : (a.id == u2.id) = false := by
        by_contra hc
        have h6 : (a.id == u2.id) = true := by
          simpa using hc
        have h7 : a.id = u2.id := by
          simpa using h6
        rw [h7, hid, hu] at hb
        exact Bool.noConfusion hb
      have h8 : l.find? (fun v => v.id == uid) = some u := by
        have h9 : (a :: l).find? (fun v => v.id == uid) = l.find? (fun v => v.id == uid) :=
          List.find?_cons_of_neg (p := fun v : Journalist => v.id == uid) l ha
        rw [h9] at h
        exact h
      rw [if_neg (by simp [h2])]
      rw [List.find?_cons_of_neg (p := fun v : Journalist => v.id == uid) _ ha]
      exact ih h8

/-- Helper: `queryGet` after `storeUser`, lifted to the database type. -/
theorem queryGet_storeUser (db : DB) (uid : Nat) (u u2 : Journalist)
    (h : queryGet db uid = some u) (hid : u2.id = u.id) :
    queryGet (storeUser db u2) uid = some u2 :=
  find?_map_store db.users uid u u2 h hid

/-! ## Claims -/

/-- C1: the claim says a password-reset POST (`/edit/{id}/new-password`) for a
nonexistent account id yields HTTP 404 and does not attempt to set a
password. The code violates this: `Journalist.query.get` returns `None`
instead of raising `NoResultFound`, so the `abort(404)` branch is dead and the
handler falls through to `set_diceware_password(None, password)`, which raises
an uncaught `AttributeError` (HTTP 500). Evaluated here at an empty user table
with target id 999. -/
theorem C1_set_password_missing_user_is_not_404 :
    (set_password ⟨[], 1⟩ 999 (some "x")).resp = .pythonError "AttributeError" ∧
    (set_password ⟨[], 1⟩ 999 (some "x")).resp ≠ .httpAbort 404 := by
  decide

/-- C2: a POST `/delete/{id}` whose target id equals the requesting admin's
own id returns HTTP 403, writes the self-deletion log line, and performs no
deletion: the database is unchanged, so the admin's account is looked up
afterwards exactly as before. -/
theorem C2_delete_self_forbidden (db : DB) (gUser : Journalist) (uid : Nat)
    (h : uid = gUser.id) :
    (delete_user db gUser uid).resp = .httpAbort 403 ∧
    (delete_user db gUser uid).db = db ∧
    (delete_user db gUser uid).logs =
      ["Admin " ++ gUser.username ++ " tried to delete itself"] ∧
    queryGet (delete_user db gUser uid).db gUser.id = queryGet db gUser.id := by
  subst h
  simp [delete_user]

/-- C2 witness: an admin with id 1 who tries to delete id 1. -/
theorem C2_delete_self_forbidden_witness :
    (delete_user ⟨[⟨1, "alice", "h", true, true, none⟩], 2⟩
        ⟨1, "alice", "h", true, true, none⟩ 1).resp = .httpAbort 403 ∧
    (delete_user ⟨[⟨1, "alice", "h", true, true, none⟩], 2⟩
        ⟨1, "alice", "h", true, true, none⟩ 1).db = ⟨[⟨1, "alice", "h", true, true, none⟩], 2⟩ ∧
    (delete_user ⟨[⟨1, "alice", "h", true, true, none⟩], 2⟩
        ⟨1, "alice", "h", true, true, none⟩ 1).logs =
      ["Admin " ++ "alice" ++ " tried to delete itself"] ∧
    queryGet (delete_user ⟨[⟨1, "alice", "h", true, true, none⟩], 2⟩
        ⟨1, "alice", "h", true, true, none⟩ 1).db 1 =
      queryGet ⟨[⟨1, "alice", "h", true, true, none⟩], 2⟩ 1 :=
  C2_delete_self_forbidden ⟨[⟨1, "alice", "h", true, true, none⟩], 2⟩
    ⟨1, "alice", "h", true, true, none⟩ 1 rfl

/-- C5: a POST `/delete/{id}` whose target id does not exist (and is not the
requester's own id) aborts with HTTP 404, writes the nonexistent-user log
line, and leaves the database untouched. -/
theorem C5_delete_missing_user_404 (db : DB) (gUser : Journalist) (uid : Nat)
    (hneq : uid ≠ gUser.id) (hmiss : queryGet db uid = none) :
    delete_user db gUser uid =
      { resp := .httpAbort 404, db := db, flashes := [],
        logs := ["Admin " ++ gUser.username ++
                 " tried to delete nonexistent user with pk=" ++ toString uid] } := by
  simp [delete_user, hmiss, hneq]

/-- C5 witness: admin with id 1 deletes the absent id 42. -/
theorem C5_delete_missing_user_404_witness :
    delete_user ⟨[⟨1, "alice", "h", true, true, none⟩], 2⟩
        ⟨1, "alice", "h", true, true, none⟩ 42 =
      { resp := .httpAbort 404, db := ⟨[⟨1, "alice", "h", true, true, none⟩], 2⟩,
        flashes := [],
        logs := ["Admin " ++ "alice" ++
                 " tried to delete nonexistent user with pk=" ++ toString 42] } :=
  C5_delete_missing_user_404 ⟨[⟨1, "alice", "h", true, true, none⟩], 2⟩
    ⟨1, "alice", "h", true, true, none⟩ 42 (by decide) (by decide)

/-- C7: the two views bound to POST `/edit/{id}/new-password` are
extensionally equal: on every database, target id and submitted password they
produce the same response, database, flashes and logs. -/
theorem C7_set_password_eq_new_password (db : DB) (uid : Nat) (password : Option String) :
    set_password db uid password = new_password db uid password := rfl

/-- C10: a POST `/reset-2fa-hotp` whose `otp_secret` field is missing or empty
just re-renders the secret-entry form: the database is unchanged (no commit),
and no flash or log is produced. -/
theorem C10_empty_secret_rerenders (db : DB) (uid : Nat) (otpSecret : Option String)
    (h : truthy otpSecret = false) :
    reset_two_factor_hotp db uid otpSecret =
      { resp := .render "admin_edit_hotp_secret.html", db := db,
        flashes := [], logs := [] } := by
  simp [reset_two_factor_hotp, h]

/-- C10 witness: a missing `otp_secret` field. -/
theorem C10_empty_secret_rerenders_witness :
    reset_two_factor_hotp ⟨[⟨1, "alice", "h", true, true, none⟩], 2⟩ 1 none =
      { resp := .render "admin_edit_hotp_secret.html",
        db := ⟨[⟨1, "alice", "h", true, true, none⟩], 2⟩,
        flashes := [], logs := [] } :=
  C10_empty_secret_rerenders ⟨[⟨1, "alice", "h", true, true, none⟩], 2⟩ 1 none rfl

/-- C3: a POST `/add` whose (otherwise valid) submission carries a username
already present in the table is never persisted — the transaction is rolled
back, so the database is unchanged — and the duplicate-username flash is
surfaced while the form is re-rendered rather than an exception escaping. -/
theorem C3_duplicate_username_not_persisted (db : DB) (form : AddForm)
    (hval : validate_on_submit .POST form = true)
    (hacc : check_username_acceptable form.username = .ok ())
    (hpw : passwordValid form.password = true)
    (hdup : db.users.any (fun v => v.username == form.username) = true) :
    (add_user db .POST form).db = db ∧
    (add_user db .POST form).flashes = [("That username is already in use", "error")] ∧
    (add_user db .POST form).resp = .render "admin_add_user.html" := by
  have hsub : strContains uniqueViolationMsg uniqueViolationMsg = true := by decide
  simp [add_user, hval, mkJournalist, hacc, hpw, sessionAddCommit, hdup, hsub]

/-- C3 witness: adding a second "alice". -/
theorem C3_duplicate_username_not_persisted_witness :
    (add_user ⟨[⟨1, "alice", "h", false, true, none⟩], 2⟩ .POST
        ⟨"alice", "pw", none, none, none⟩).db = ⟨[⟨1, "alice", "h", false, true, none⟩], 2⟩ ∧
    (add_user ⟨[⟨1, "alice", "h", false, true, none⟩], 2⟩ .POST
        ⟨"alice", "pw", none, none, none⟩).flashes =
      [("That username is already in use", "error")] ∧
    (add_user ⟨[⟨1, "alice", "h", false, true, none⟩], 2⟩ .POST
        ⟨"alice", "pw", none, none, none⟩).resp = .render "admin_add_user.html" :=
  C3_duplicate_username_not_persisted ⟨[⟨1, "alice", "h", false, true, none⟩], 2⟩
    ⟨"alice", "pw", none, none, none⟩ (by decide) rfl (by decide) (by decide)

/-- C4: a POST `/reset-2fa-hotp` on an existing account with an odd-length or
non-hex secret leaves the database unchanged (the commit is skipped),
re-renders the secret form, and flashes a message that distinguishes the
odd-length case from the non-hex-digit case (the two messages differ). -/
theorem C4_hotp_malformed_secret_unchanged (db : DB) (uid : Nat) (u : Journalist) (s : String)
    (hu : queryGet db uid = some u)
    (hbad : s.length % 2 = 1 ∨
      (s.length % 2 = 0 ∧ s.toList.any (fun c => !(set_hotp_secret.isHexDigitChar c)) = true)) :
    (reset_two_factor_hotp db uid (some s)).db = db ∧
    (reset_two_factor_hotp db uid (some s)).resp = .render "admin_edit_hotp_secret.html" ∧
    (s.length % 2 = 1 →
      (reset_two_factor_hotp db uid (some s)).flashes =
        [("Invalid secret format: odd-length secret. Did you mistype the secret?", "error")]) ∧
    (s.length % 2 = 0 →
      (reset_two_factor_hotp db uid (some s)).flashes =
        [("Invalid secret format: please only submit letters A-F and numbers 0-9.", "error")]) ∧
    ("Invalid secret format: odd-length secret. Did you mistype the secret?" : String) ≠
      "Invalid secret format: please only submit letters A-F and numbers 0-9." := by
  have hne : s ≠ "" := by
    rcases hbad with hodd | ⟨heven, hhex⟩
    · intro he
      rw [he] at hodd
      exact absurd hodd (by decide)
    · intro he
      rw [he] at hhex
      exact absurd hhex (by decide)
  have ht : truthy (some s) = true := by
    simp [truthy, hne]
  rcases hbad with hodd | ⟨heven, hhex⟩
  · have h1 : set_hotp_secret u s = .error "Odd-length string" := by
      simp [set_hotp_secret, hodd]
    have hc1 : strContains "Odd-length string" "Non-hexadecimal digit found" = false := by decide
    have hc2 : strContains "Odd-length string" "Odd-length string" = true := by decide
    refine ⟨?_, ?_, ?_, ?_, by decide⟩ <;>
      simp [reset_two_factor_hotp, ht, hu, h1, hc1, hc2, hodd]
  · have hhex2 : ∃ x ∈ s.data, set_hotp_secret.isHexDigitChar x = false := by
      simpa using hhex
    have h1 : set_hotp_secret u s = .error "Non-hexadecimal digit found" := by
      simp [set_hotp_secret, heven, hhex2]
    have hc1 : strContains "Non-hexadecimal digit found" "Non-hexadecimal digit found" = true := by
      decide
    refine ⟨?_, ?_, ?_, ?_, by decide⟩ <;>
      simp [reset_two_factor_hotp, ht, hu, h1, hc1, heven]

/-- C4 witness: the odd-length secret "abc" against an existing account. -/
theorem C4_hotp_malformed_secret_unchanged_witness :
    (reset_two_factor_hotp ⟨[⟨1, "alice", "h", false, true, none⟩], 2⟩ 1 (some "abc")).db
        = ⟨[⟨1, "alice", "h", false, true, none⟩], 2⟩ ∧
    (reset_two_factor_hotp ⟨[⟨1, "alice", "h", false, true, none⟩], 2⟩ 1 (some "abc")).resp
        = .render "admin_edit_hotp_secret.html" ∧
    ("abc".length % 2 = 1 →
      (reset_two_factor_hotp ⟨[⟨1, "alice", "h", false, true, none⟩], 2⟩ 1 (some "abc")).flashes =
        [("Invalid secret format: odd-length secret. Did you mistype the secret?", "error")]) ∧
    ("abc".length % 2 = 0 →
      (reset_two_factor_hotp ⟨[⟨1, "alice", "h", false, true, none⟩], 2⟩ 1 (some "abc")).flashes =
        [("Invalid secret format: please only submit letters A-F and numbers 0-9.", "error")]) ∧
    ("Invalid secret format: odd-length secret. Did you mistype the secret?" : String) ≠
      "Invalid secret format: please only submit letters A-F and numbers 0-9." :=
  C4_hotp_malformed_secret_unchanged ⟨[⟨1, "alice", "h", false, true, none⟩], 2⟩ 1
    ⟨1, "alice", "h", false, true, none⟩ "abc" rfl (Or.inl (by decide))

/-- C6: a POST `/edit/{id}` that submits the account's current (acceptable)
username is a no-op on the username: the uniqueness check is skipped, no flash
at all is produced (in particular no username-taken error), the edit page is
rendered, and the stored account afterwards keeps its old username (only the
admin flag is taken from the form). -/
theorem C6_edit_same_username_noop (db : DB) (uid : Nat) (user : Journalist) (form : EditForm)
    (hu : queryGet db uid = some user)
    (hform : form.username = some user.username)
    (hacc : check_username_acceptable user.username = .ok ()) :
    (edit_user db uid .POST form).resp = .render "edit_account.html" ∧
    (edit_user db uid .POST form).flashes = [] ∧
    queryGet (edit_user db uid .POST form).db uid =
      some { user with isAdmin := truthy form.isAdmin } := by
  have hne : user.username ≠ "" := by
    intro he
    rw [he] at hacc
    exact Except.noConfusion hacc
  have hred : edit_user db uid .POST form = finishEdit db user form := by
    simp [edit_user, hu, hform, truthy, hne, hacc]
  rw [hred]
  refine ⟨rfl, rfl, ?_⟩
  exact queryGet_storeUser db uid user { user with isAdmin := truthy form.isAdmin } hu rfl

/-- C6 witness: editing account 1 ("alice") submitting the username "alice"
again, together with the admin checkbox. -/
theorem C6_edit_same_username_noop_witness :
    (edit_user ⟨[⟨1, "alice", "h", false, true, none⟩], 2⟩ 1 .POST
        ⟨some "alice", some "on"⟩).resp = .render "edit_account.html" ∧
    (edit_user ⟨[⟨1, "alice", "h", false, true, none⟩], 2⟩ 1 .POST
        ⟨some "alice", some "on"⟩).flashes = [] ∧
    queryGet (edit_user ⟨[⟨1, "alice", "h", false, true, none⟩], 2⟩ 1 .POST
        ⟨some "alice", some "on"⟩).db 1 = some ⟨1, "alice", "h", true, true, none⟩ :=
  C6_edit_same_username_noop ⟨[⟨1, "alice", "h", false, true, none⟩], 2⟩ 1
    ⟨1, "alice", "h", false, true, none⟩ ⟨some "alice", some "on"⟩ rfl rfl rfl

/-- Helper: the row `add_user` inserts on a successful submission. -/
def newUserOf (db : DB) (form : AddForm) : Journalist :=
  { id := db.nextId, username := form.username,
    passwordHash := hashPassword form.password,
    isAdmin := truthy form.isAdmin,
    isTotp := (if truthy form.isHotp then some (form.otpSecret.getD "") else none).isNone,
    otpSecret := if truthy form.isHotp then some (form.otpSecret.getD "") else none }

/-- Helper: on a validated, acceptable, collision-free submission, `add_user`
inserts exactly `newUserOf db form` and redirects to the enrollment step for
its fresh id. -/
theorem add_user_success (db : DB) (form : AddForm)
    (hval : validate_on_submit .POST form = true)
    (hacc : check_username_acceptable form.username = .ok ())
    (hpw : passwordValid form.password = true)
    (hdup : db.users.any (fun v => v.username == form.username) = false) :
    add_user db .POST form =
      { resp := .redirect (newUserTwoFactorUrl db.nextId),
        db := { users := db.users ++ [newUserOf db form], nextId := db.nextId + 1 },
        flashes := [], logs := [] } := by
  simp [add_user, hval, mkJournalist, hacc, hpw, sessionAddCommit, hdup, newUserOf]

/-- C8: end-to-end enrollment. On a table without an "alice" and with a fresh
next id, POST `/add` with username "alice", password "x" and no admin flag
redirects to `/2fa?uid=<new_id>`, the new row is retrievable under the new
id, and a subsequent POST `/2fa` for that uid with the token the new account's
OTP configuration accepts redirects to the account list `/`. -/
theorem C8_add_then_two_factor (db : DB)
    (hdup : db.users.any (fun v => v.username == "alice") = false)
    (hid : db.users.all (fun v => v.id != db.nextId) = true) :
    (add_user db .POST ⟨"alice", "x", none, none, none⟩).resp
        = .redirect ("/2fa?uid=" ++ toString db.nextId) ∧
    queryGet (add_user db .POST ⟨"alice", "x", none, none, none⟩).db db.nextId
        = some (newUserOf db ⟨"alice", "x", none, none, none⟩) ∧
    (new_user_two_factor (add_user db .POST ⟨"alice", "x", none, none, none⟩).db db.nextId .POST
        (some (expected_token (newUserOf db ⟨"alice", "x", none, none, none⟩)))).resp
        = .redirect "/" := by
  have hs := add_user_success db ⟨"alice", "x", none, none, none⟩ (by decide) rfl
    (by decide) hdup
  rw [hs]
  have hnone : db.users.find? (fun v => v.id == db.nextId) = none := by
    rw [List.find?_eq_none]
    intro x hx
    have h2 := List.all_eq_true.mp hid x hx
    simp only [bne_iff_ne, ne_eq] at h2
    simp [h2]
  have hq : queryGet
      { users := db.users ++ [newUserOf db ⟨"alice", "x", none, none, none⟩],
        nextId := db.nextId + 1 } db.nextId
      = some (newUserOf db ⟨"alice", "x", none, none, none⟩) := by
    unfold queryGet
    rw [find?_append_left_none _ _ _ hnone]
    exact List.find?_cons_of_pos (p := fun v : Journalist => v.id == db.nextId) _
      (by simp [newUserOf])
  exact ⟨rfl, hq, by simp [new_user_two_factor, hq, verify_token, adminIndexUrl]⟩

/-- C8 witness: the empty table with next id 1. -/
theorem C8_add_then_two_factor_witness :
    (add_user ⟨[], 1⟩ .POST ⟨"alice", "x", none, none, none⟩).resp
        = .redirect ("/2fa?uid=" ++ toString (1 : Nat)) ∧
    queryGet (add_user ⟨[], 1⟩ .POST ⟨"alice", "x", none, none, none⟩).db 1
        = some (newUserOf ⟨[], 1⟩ ⟨"alice", "x", none, none, none⟩) ∧
    (new_user_two_factor (add_user ⟨[], 1⟩ .POST ⟨"alice", "x", none, none, none⟩).db 1 .POST
        (some (expected_token (newUserOf ⟨[], 1⟩ ⟨"alice", "x", none, none, none⟩)))).resp
        = .redirect "/" :=
  C8_add_then_two_factor ⟨[], 1⟩ (by decide) (by decide)

/-- C9: on a valid POST `/add` whose `is_hotp` field is not truthy, the
persisted row is created with `otp_secret = None` (the TOTP default), even if
an `otp_secret` value was submitted in the form. -/
theorem C9_totp_default_when_no_hotp_flag (db : DB) (form : AddForm)
    (hval : validate_on_submit .POST form = true)
    (hacc : check_username_acceptable form.username = .ok ())
    (hpw : passwordValid form.password = true)
    (hdup : db.users.any (fun v => v.username == form.username) = false)
    (hhotp : truthy form.isHotp = false) :
    (add_user db .POST form).db.users = db.users ++ [newUserOf db form] ∧
    (newUserOf db form).otpSecret = none ∧
    (newUserOf db form).isTotp = true := by
  rw [add_user_success db form hval hacc hpw hdup]
  simp [newUserOf, hhotp]

/-- C9 witness: a form that submits an `otp_secret` value but no `is_hotp`
flag. -/
theorem C9_totp_default_when_no_hotp_flag_witness :
    (add_user ⟨[], 1⟩ .POST ⟨"bob", "pw", none, none, some "deadbeef"⟩).db.users
        = [] ++ [newUserOf ⟨[], 1⟩ ⟨"bob", "pw", none, none, some "deadbeef"⟩] ∧
    (newUserOf ⟨[], 1⟩ ⟨"bob", "pw", none, none, some "deadbeef"⟩).otpSecret = none ∧
    (newUserOf ⟨[], 1⟩ ⟨"bob", "pw", none, none, some "deadbeef"⟩).isTotp = true :=
  C9_totp_default_when_no_hotp_flag ⟨[], 1⟩ ⟨"bob", "pw", none, none, some "deadbeef"⟩
    (by decide) rfl (by decide) (by decide) (by decide)

end Admin
